import Mathlib

/-!
Shallow embedding of the `thin-ptr` crate (src/lib.rs, src/ext_alloc.rs).

Addresses are modelled as `Nat` (`0` plays the role of the null address, so a
`NonNull` pointer is a positive `Nat`).  All observable effects of the library
are made explicit through a `State` record that is threaded through every
operation: the allocated cells (`mem`), the shared strong counts (`rc`), an
allocator oracle (`allocFn`, consulted once per `alloc` call), and counters
plus an event trace recording allocator calls, `T::clone` invocations,
deallocations and strong-count increments.  The `atomic` flag on the
strong-count increment event records which standard-library function the
source calls: `Arc::increment_strong_count` (an atomic fetch-add) versus
`Rc::increment_strong_count` (a plain cell update).

Pure pointer casts (`NonNull::cast`, the blanket `Erasable::unerase`) are
address-identities.  Rust's implicit drop of a by-value `self` at the end of a
function body is modelled explicitly where the dropped type has a `Drop` impl
(`Thin<P>` is the only such type in the crate).
-/

set_option autoImplicit false

inductive Event where
  | allocCall (size : Nat) : Event
  | cloneCall : Event
  | freeAt (addr : Nat) : Event
  | incrStrong (atomic : Bool) (addr : Nat) : Event
deriving DecidableEq, Repr

structure State (V : Type) where
  mem : Nat → Option V
  rc : Nat → Nat
  allocFn : Nat → Option Nat
  allocCalls : Nat
  cloneCalls : Nat
  drops : Nat
  events : List Event

variable {V : Type} {H : Type}

/-- One call to the global allocator `alloc(layout)`: the oracle `allocFn`
decides (by call index) whether it returns a fresh address or null. -/
def State.allocOnce (st : State V) (size : Nat) : Option Nat × State V :=
  (st.allocFn st.allocCalls,
    { st with
        allocCalls := st.allocCalls + 1
        events := Event.allocCall size :: st.events })

/-- One invocation of the pointee's own duplication logic, `T::clone`, through
a shared reference to the value at `addr` (the body of the `value` closure in
`Box::clone_from_raw`).  Cloning an address that holds no value is undefined
behaviour in the source; the model returns `default` there. -/
def cloneAt [Inhabited V] (addr : Nat) (st : State V) : V × State V :=
  ((st.mem addr).getD default,
    { st with
        cloneCalls := st.cloneCalls + 1
        events := Event.cloneCall :: st.events })

/-- Blanket `impl Erasable for T { unerase(ptr) = ptr.cast() }`: a pure
address cast, no read, no write, no reference creation (it is a total
`Nat → Nat` function with no access to the `State`). -/
def unerase (p : Nat) : Nat := p

/-- `NonNull::<T>::dangling()`: the fixed, well-aligned, non-dereferenceable
sentinel address for a zero-size pointee, equal to `T`'s alignment. -/
def danglingAddr (alignT : Nat) : Nat := alignT

/-- `&T`: a borrowing reference, carried by its address. -/
structure Ref where
  addr : Nat
deriving DecidableEq, Repr

/-- `&mut T`: a mutable reference, carried by its address. -/
structure MutRef where
  addr : Nat
deriving DecidableEq, Repr

/-- `Box<T>`: the exclusively-owning heap handle, carried by its address. -/
structure Box where
  addr : Nat
deriving DecidableEq, Repr

/-- `Rc<T>`: the non-atomic shared handle, carried by its address. -/
structure Rc where
  addr : Nat
deriving DecidableEq, Repr

/-- `Arc<T>`: the atomic shared handle, carried by its address. -/
structure Arc where
  addr : Nat
deriving DecidableEq, Repr

/-- `<&T as ErasablePtr>::into_raw`: `NonNull::from(self).cast()`. -/
def Ref.into_raw (r : Ref) (st : State V) : Nat × State V :=
  (r.addr, st)

/-- `<&T as ErasablePtr>::from_raw`: `&*T::unerase(ptr).as_ptr()`. -/
def Ref.from_raw (p : Nat) (st : State V) : Ref × State V :=
  (⟨unerase p⟩, st)

/-- `<&T as CloneFromRaw>::clone_from_raw`: passthru. -/
def Ref.clone_from_raw (p : Nat) (st : State V) : Nat × State V :=
  (p, st)

/-- `<&mut T as ErasablePtr>::into_raw`: `NonNull::from(self).cast()`. -/
def MutRef.into_raw (m : MutRef) (st : State V) : Nat × State V :=
  (m.addr, st)

/-- `<&mut T as ErasablePtr>::from_raw`: `&mut *T::unerase(ptr).as_ptr()`. -/
def MutRef.from_raw (p : Nat) (st : State V) : MutRef × State V :=
  (⟨unerase p⟩, st)

/-- `<Box<T> as ErasablePtr>::into_raw`: `Box::into_raw(self).cast()`; leaks
the box (no destructor, no state change). -/
def Box.into_raw (b : Box) (st : State V) : Nat × State V :=
  (b.addr, st)

/-- `<Box<T> as ErasablePtr>::from_raw`: `Box::from_raw(T::unerase(ptr))`. -/
def Box.from_raw (p : Nat) (st : State V) : Box × State V :=
  (⟨unerase p⟩, st)

/-- `Drop for Box<T>` (standard library): drops the pointee and frees its
cell. -/
def Box.dropBox (b : Box) (st : State V) : State V :=
  { st with
      mem := fun a => if a = b.addr then none else st.mem a
      drops := st.drops + 1
      events := Event.freeAt b.addr :: st.events }

/-- Outcome of `Box::clone_from_raw`: either a pointer, or the diverging
`handle_alloc_error(layout)` call, which terminates the process and never
returns a value.  `aborted` carries the state at the instant of termination. -/
inductive CloneResult (V : Type) where
  | ok (ptr : Nat) (st : State V) : CloneResult V
  | aborted (layoutSize : Nat) (st : State V) : CloneResult V

/-- `<Box<T> as CloneFromRaw>::clone_from_raw`, parametrised by
`size_of::<T>()` and `align_of::<T>()`.  The `value` closure (one `T::clone`
through the erased pointer) is `cloneAt p`.  Zero-size path: run the closure,
`forget` its result, return `NonNull::<T>::dangling().cast()`.  Non-zero-size
path: call `alloc(layout)` first; on null, `handle_alloc_error(layout)`
aborts; on success, run the closure and `write` its result into the new
cell. -/
def Box.clone_from_raw [Inhabited V] (sizeT alignT : Nat) (p : Nat)
    (st : State V) : CloneResult V :=
  if sizeT = 0 then
    let (_, st1) := cloneAt p st
    CloneResult.ok (danglingAddr alignT) st1
  else
    match st.allocOnce sizeT with
    | (none, st1) => CloneResult.aborted sizeT st1
    | (some q, st1) =>
      let (v, st2) := cloneAt p st1
      CloneResult.ok q
        { st2 with mem := fun a => if a = q then some v else st2.mem a }

/-- `<Rc<T> as ErasablePtr>::into_raw`: `Rc::into_raw(self)`; forgets the
handle without touching the strong count. -/
def Rc.into_raw (r : Rc) (st : State V) : Nat × State V :=
  (r.addr, st)

/-- `<Rc<T> as ErasablePtr>::from_raw`: `Rc::from_raw(T::unerase(ptr))`. -/
def Rc.from_raw (p : Nat) (st : State V) : Rc × State V :=
  (⟨unerase p⟩, st)

/-- `<Rc<T> as CloneFromRaw>::clone_from_raw`:
`Rc::increment_strong_count(value)` (a plain, non-atomic cell increment),
then return the input pointer. -/
def Rc.clone_from_raw (p : Nat) (st : State V) : Nat × State V :=
  (p,
    { st with
        rc := fun a => if a = p then st.rc a + 1 else st.rc a
        events := Event.incrStrong false p :: st.events })

/-- `<Arc<T> as ErasablePtr>::into_raw`: `Arc::into_raw(self)`. -/
def Arc.into_raw (r : Arc) (st : State V) : Nat × State V :=
  (r.addr, st)

/-- `<Arc<T> as ErasablePtr>::from_raw`: `Arc::from_raw(T::unerase(ptr))`. -/
def Arc.from_raw (p : Nat) (st : State V) : Arc × State V :=
  (⟨unerase p⟩, st)

/-- `<Arc<T> as CloneFromRaw>::clone_from_raw`:
`Arc::increment_strong_count(value)` (an atomic fetch-add on the shared
count), then return the input pointer. -/
def Arc.clone_from_raw (p : Nat) (st : State V) : Nat × State V :=
  (p,
    { st with
        rc := fun a => if a = p then st.rc a + 1 else st.rc a
        events := Event.incrStrong true p :: st.events })

/-- The `ErasablePtr` capability of a handle kind `H`, together with the data
Rust attaches to the type itself: `core::mem::needs_drop::<H>()` and the
`Drop` glue `dropH` that runs when a value of `H` goes out of scope. -/
structure PtrClass (H : Type) (V : Type) where
  into_raw : H → State V → Nat × State V
  from_raw : Nat → State V → H × State V
  needsDrop : Bool
  dropH : H → State V → State V

/-- `&T` as a `PtrClass`: `needs_drop::<&T>() = false`, drop glue is a no-op. -/
def refClass (V : Type) : PtrClass Ref V where
  into_raw := Ref.into_raw
  from_raw := Ref.from_raw
  needsDrop := false
  dropH := fun _ st => st

/-- `Box<T>` as a `PtrClass`: `needs_drop::<Box<T>>() = true`, drop glue frees. -/
def boxClass (V : Type) : PtrClass Box V where
  into_raw := Box.into_raw
  from_raw := Box.from_raw
  needsDrop := true
  dropH := Box.dropBox

/-- `RawThin<P>`: a bare opaque-pointer wrapper (the `PhantomData<P>` tag has
no runtime content and is dropped from the model).  `Copy`, no `Drop` impl. -/
structure RawThin where
  ptr : Nat
deriving DecidableEq, Repr

/-- `CopyThin<P>`: `RawThin<P>` restricted to `Copy` handle kinds. -/
structure CopyThin where
  raw : RawThin
deriving DecidableEq, Repr

/-- `Thin<P>`: the owning wrapper; holds one `RawThin<P>`.  Has a `Drop` impl. -/
structure Thin where
  raw : RawThin
deriving DecidableEq, Repr

/-- `<RawThin<P> as ErasablePtr>::into_raw`: returns the stored pointer
(`RawThin` is `Copy`, so no destructor runs on `self`). -/
def RawThin.into_raw (w : RawThin) : Nat := w.ptr

/-- `<RawThin<P> as ErasablePtr>::from_raw`: stores the pointer. -/
def RawThin.from_raw (p : Nat) : RawThin := ⟨p⟩

/-- `<RawThin<P> as CloneFromRaw>::clone_from_raw`: passthru. -/
def RawThin.clone_from_raw (p : Nat) (st : State V) : Nat × State V :=
  (p, st)

/-- `RawThin::new`: `P::into_raw(ptr)` stored. -/
def RawThin.new (C : PtrClass H V) (h : H) (st : State V) :
    RawThin × State V :=
  let (p, st1) := C.into_raw h st
  (⟨p⟩, st1)

/-- `RawThin::into_inner`: `P::from_raw(self.ptr)`. -/
def RawThin.into_inner (C : PtrClass H V) (w : RawThin) (st : State V) :
    H × State V :=
  C.from_raw w.ptr st

/-- `<CopyThin<P> as ErasablePtr>::into_raw`: returns the stored pointer. -/
def CopyThin.into_raw (w : CopyThin) : Nat := w.raw.ptr

/-- `<CopyThin<P> as ErasablePtr>::from_raw`: stores the pointer. -/
def CopyThin.from_raw (p : Nat) : CopyThin := ⟨⟨p⟩⟩

/-- `<CopyThin<P> as CloneFromRaw>::clone_from_raw`: passthru. -/
def CopyThin.clone_from_raw (p : Nat) (st : State V) : Nat × State V :=
  (p, st)

/-- `impl Drop for Thin<P>`: if `needs_drop::<P>()`, reconstruct the handle
with `self.raw.into_inner()` (= `P::from_raw`) and let its own destructor run
(the reconstructed value is bound to `_`, dropping it immediately); otherwise
do nothing. -/
def Thin.dropImpl (C : PtrClass H V) (t : Thin) (st : State V) : State V :=
  if C.needsDrop then
    let (h, st1) := C.from_raw t.raw.ptr st
    C.dropH h st1
  else st

/-- `Thin::into_inner`: copy out `self.raw`, `core::mem::forget(self)` (so
`Thin`'s `Drop` does NOT run), then `raw.into_inner()` = `P::from_raw`. -/
def Thin.into_inner (C : PtrClass H V) (t : Thin) (st : State V) :
    H × State V :=
  C.from_raw t.raw.ptr st

/-- `Thin::new`: stores `P::into_raw(ptr)`. -/
def Thin.new (C : PtrClass H V) (h : H) (st : State V) : Thin × State V :=
  let (p, st1) := C.into_raw h st
  (⟨⟨p⟩⟩, st1)

/-- `<Thin<P> as CloneFromRaw>::clone_from_raw`: `P::clone_from_raw(ptr)` —
pure delegation to the wrapped kind's duplication (`pClone`). -/
def Thin.clone_from_raw (pClone : Nat → State V → Nat × State V)
    (p : Nat) (st : State V) : Nat × State V :=
  pClone p st

/-- `Thin<P>` as a `PtrClass` (its own `ErasablePtr` impl).  `into_raw(self)`
reads `self.raw.ptr` and returns it; because `Thin<P>` implements `Drop` and
the body does not `mem::forget(self)`, Rust runs `Thin`'s destructor on
`self` when the body ends — modelled by the `Thin.dropImpl` call.
`needs_drop::<Thin<P>>() = true` since `Thin` has a `Drop` impl. -/
def thinClass (C : PtrClass H V) : PtrClass Thin V where
  into_raw := fun t st => (t.raw.ptr, Thin.dropImpl C t st)
  from_raw := fun p st => (⟨⟨p⟩⟩, st)
  needsDrop := true
  dropH := fun t st => Thin.dropImpl C t st

/-- The handle kinds given concrete impls in the crate. -/
inductive HandleKind where
  | ref
  | mutRef
  | box
  | rc
  | arc
  | rawThin
  | copyThin
deriving DecidableEq, Repr

/-- Which kinds the crate gives a `CloneFromRaw` impl.  Transcribed from the
impl blocks: `&T`, `Box<T>`, `Rc<T>`, `Arc<T>`, `RawThin<P>`, `CopyThin<P>`
(and `Thin<P>` conditionally on `P`); there is none for `&mut T` — it could
not exist, since `CloneFromRaw: Clone` and `&mut T` is not `Clone`. -/
def hasCloneFromRaw : HandleKind → Bool
  | HandleKind.ref => true
  | HandleKind.mutRef => false
  | HandleKind.box => true
  | HandleKind.rc => true
  | HandleKind.arc => true
  | HandleKind.rawThin => true
  | HandleKind.copyThin => true

/-- Concrete scratch state: one box holding the value `42` at address `5`;
the allocator oracle always fails. -/
def stBox : State Nat where
  mem := fun a => if a = 5 then some 42 else none
  rc := fun _ => 0
  allocFn := fun _ => none
  allocCalls := 0
  cloneCalls := 0
  drops := 0
  events := []

/-- Concrete scratch state with an always-failing allocator and empty memory. -/
def stFail : State Nat where
  mem := fun _ => none
  rc := fun _ => 0
  allocFn := fun _ => none
  allocCalls := 0
  cloneCalls := 0
  drops := 0
  events := []

/-- Claim C1 (code bug, evaluated at the failing input): for `Thin<Box<T>>`,
`<Thin<_> as ErasablePtr>::into_raw` does return the stored pointer (here,
address `5`), but because the body never calls `core::mem::forget(self)` and
`Thin<P>` implements `Drop`, the destructor of `self` runs at the end of the
body; `needs_drop::<Box<Nat>>()` holds, so the underlying `Box` is
reconstructed and destroyed during `into_raw`: the destruction counter rises
from `0` to `1`, the cell at the returned address is freed, and a
deallocation event is emitted — contradicting the claim that convert-out
consumes ownership without running destruction logic. -/
theorem thin_into_raw_runs_destructor :
    ((thinClass (boxClass Nat)).into_raw ⟨⟨5⟩⟩ stBox).1 = 5
    ∧ ((thinClass (boxClass Nat)).into_raw ⟨⟨5⟩⟩ stBox).2.drops = 1
    ∧ ((thinClass (boxClass Nat)).into_raw ⟨⟨5⟩⟩ stBox).2.mem 5 = none
    ∧ ((thinClass (boxClass Nat)).into_raw ⟨⟨5⟩⟩ stBox).2.events
        = [Event.freeAt 5] := by
  refine ⟨rfl, rfl, ?_, rfl⟩
  simp [thinClass, Thin.dropImpl, boxClass, Box.from_raw, Box.dropBox, unerase, stBox]

/-- Claim C2: for every handle kind — borrowing reference, mutable reference,
`Box`, `Rc`, `Arc` — `from_raw` applied to the pointer produced by `into_raw`
on a handle returns exactly the original handle and leaves the whole state
(memory, counts, traces) unchanged, so the reconstructed handle addresses the
same location and every read/write-through result agrees with the original. -/
theorem from_raw_into_raw_roundtrip (V : Type) (st : State V)
    (r : Ref) (m : MutRef) (b : Box) (c : Rc) (a : Arc) :
    Ref.from_raw (Ref.into_raw r st).1 (Ref.into_raw r st).2 = (r, st)
    ∧ MutRef.from_raw (MutRef.into_raw m st).1 (MutRef.into_raw m st).2 = (m, st)
    ∧ Box.from_raw (Box.into_raw b st).1 (Box.into_raw b st).2 = (b, st)
    ∧ Rc.from_raw (Rc.into_raw c st).1 (Rc.into_raw c st).2 = (c, st)
    ∧ Arc.from_raw (Arc.into_raw a st).1 (Arc.into_raw a st).2 = (a, st) :=
  ⟨rfl, rfl, rfl, rfl, rfl⟩

/-- Claim C3: `Thin<P>`'s automatic destruction is skipped entirely when
`needs_drop::<P>()` is false (the `&T` instance), and otherwise (the
`Box` instance) performs exactly one reconstruction followed by the
reconstructed handle's own destruction: the destruction counter rises by
exactly one and exactly one deallocation event for the stored address is
emitted.  `Thin::into_inner` instead forgets `self`, returns the
reconstructed handle, and leaves the state untouched — so on either path the
underlying handle is destroyed at most once and never twice. -/
theorem thin_drop_exactly_once (V : Type) (st : State V) (t : Thin) :
    Thin.dropImpl (refClass V) t st = st
    ∧ (Thin.dropImpl (boxClass V) t st).drops = st.drops + 1
    ∧ (Thin.dropImpl (boxClass V) t st).mem t.raw.ptr = none
    ∧ (Thin.dropImpl (boxClass V) t st).events
        = Event.freeAt t.raw.ptr :: st.events
    ∧ Thin.into_inner (boxClass V) t st = (⟨t.raw.ptr⟩, st) := by
  refine ⟨rfl, rfl, ?_, rfl, rfl⟩
  simp [Thin.dropImpl, boxClass, Box.from_raw, Box.dropBox, unerase]

/-- Claim C4: `Box::clone_from_raw` over a zero-size pointee (`sizeT = 0`)
never calls the allocator (the allocator-call counter is unchanged and no
allocation event is emitted), invokes `T::clone` exactly once (the clone
counter rises by one and exactly one clone event is emitted), discards the
produced value (memory is unchanged), and returns the fixed dangling sentinel
address `danglingAddr alignT` (= `NonNull::<T>::dangling()`). -/
theorem box_clone_zst_no_alloc (V : Type) [Inhabited V]
    (alignT p : Nat) (st : State V) :
    Box.clone_from_raw 0 alignT p st =
      CloneResult.ok (danglingAddr alignT)
        { st with
            cloneCalls := st.cloneCalls + 1
            events := Event.cloneCall :: st.events } :=
  rfl

/-- Claim C5: `Rc::clone_from_raw` and `Arc::clone_from_raw` return the input
pointer bit-identically, increment the shared strong count at that address by
exactly one in place (every other count untouched), change no memory cell,
call the allocator zero times, and emit exactly one strong-count-increment
event — non-atomic (`atomic = false`, `Rc::increment_strong_count`) for the
non-atomic shared kind and atomic (`atomic = true`,
`Arc::increment_strong_count`) for the atomic shared kind. -/
theorem rc_arc_clone_increments_in_place (V : Type) (p : Nat) (st : State V) :
    (Rc.clone_from_raw p st).1 = p
    ∧ (Rc.clone_from_raw p st).2.rc
        = (fun a => if a = p then st.rc a + 1 else st.rc a)
    ∧ (Rc.clone_from_raw p st).2.mem = st.mem
    ∧ (Rc.clone_from_raw p st).2.allocCalls = st.allocCalls
    ∧ (Rc.clone_from_raw p st).2.events = Event.incrStrong false p :: st.events
    ∧ (Arc.clone_from_raw p st).1 = p
    ∧ (Arc.clone_from_raw p st).2.rc
        = (fun a => if a = p then st.rc a + 1 else st.rc a)
    ∧ (Arc.clone_from_raw p st).2.mem = st.mem
    ∧ (Arc.clone_from_raw p st).2.allocCalls = st.allocCalls
    ∧ (Arc.clone_from_raw p st).2.events
        = Event.incrStrong true p :: st.events :=
  ⟨rfl, rfl, rfl, rfl, rfl, rfl, rfl, rfl, rfl, rfl⟩

/-- Claim C6: in the non-zero-size path of `Box::clone_from_raw`, an
allocator failure (the oracle answers null for this call) reaches
`handle_alloc_error(layout)`, modelled by the `CloneResult.aborted`
constructor: the process terminates and no pointer value is ever returned or
propagated to the caller.  Every other operation of the embedding is a total
function into a plain (non-`CloneResult`) type, so no other operation has a
runtime error result. -/
theorem box_clone_alloc_failure_fatal (V : Type) [Inhabited V]
    (sizeT alignT p : Nat) (st : State V)
    (hs : sizeT ≠ 0) (hf : st.allocFn st.allocCalls = none) :
    Box.clone_from_raw sizeT alignT p st
      = CloneResult.aborted sizeT ((st.allocOnce sizeT).2) := by
  simp [Box.clone_from_raw, State.allocOnce, hs, hf]

/-- Witness for C6: at `sizeT = 4` with the always-failing allocator state
`stFail`, `Box::clone_from_raw` aborts. -/
theorem box_clone_alloc_failure_fatal_witness :
    (4 ≠ 0 ∧ stFail.allocFn stFail.allocCalls = none)
    ∧ Box.clone_from_raw 4 4 7 stFail
        = CloneResult.aborted 4 ((stFail.allocOnce 4).2) :=
  ⟨⟨by decide, rfl⟩, box_clone_alloc_failure_fatal Nat 4 4 7 stFail (by decide) rfl⟩

/-- Claim C7 counterexample: the claim asserts duplication (`clone_from_raw`)
is available for the mutable-reference kind, but the crate contains no
`CloneFromRaw` impl for `&mut T` (none can exist: `CloneFromRaw` requires
`Clone`, which `&mut T` does not implement), so the availability assertion is
false at the mutable-reference kind. -/
theorem mutref_clone_from_raw_unavailable :
    ¬ hasCloneFromRaw HandleKind.mutRef = true := by
  decide

/-- Claim C7 amended: duplication is available for the borrowing-reference
kind and is the identity on the opaque pointer — it changes no component of
the state (no allocation, no count update) and, being a total function, never
fails; the mutable-reference kind has no `CloneFromRaw` impl, so duplication
is unavailable for it at compile time. -/
theorem ref_clone_identity_mutref_none (V : Type) (p : Nat) (st : State V) :
    hasCloneFromRaw HandleKind.ref = true
    ∧ Ref.clone_from_raw p st = (p, st)
    ∧ hasCloneFromRaw HandleKind.mutRef = false :=
  ⟨rfl, rfl, rfl⟩

/-- Claim C8: erasing a valid (non-null) typed address `p` — taking the
opaque pointer produced by `into_raw` on a reference to it — and then
applying the blanket default `unerase` returns an address bit-identical to
`p`, for the shared and the mutable reference alike; the erasure step leaves
the state untouched, and `unerase` itself is a pure `Nat → Nat` cast with no
access to memory at all (no read, no write, no reference creation). -/
theorem erase_unerase_identity (V : Type) (st : State V) (p : Nat)
    (hp : 0 < p) :
    unerase (Ref.into_raw ⟨p⟩ st).1 = p
    ∧ (Ref.into_raw ⟨p⟩ st).2 = st
    ∧ unerase (MutRef.into_raw ⟨p⟩ st).1 = p
    ∧ (MutRef.into_raw ⟨p⟩ st).2 = st :=
  ⟨rfl, rfl, rfl, rfl⟩

/-- Witness for C8: the identity at the concrete valid address `3`. -/
theorem erase_unerase_identity_witness :
    0 < 3
    ∧ (unerase (Ref.into_raw ⟨3⟩ stFail).1 = 3
        ∧ (Ref.into_raw ⟨3⟩ stFail).2 = stFail
        ∧ unerase (MutRef.into_raw ⟨3⟩ stFail).1 = 3
        ∧ (MutRef.into_raw ⟨3⟩ stFail).2 = stFail) :=
  ⟨by decide, erase_unerase_identity Nat stFail 3 (by decide)⟩

/-- Claim C9: `RawThin`, `CopyThin` and `Thin` each implement the
erasable-handle capability with `into_raw` returning the stored opaque
pointer unchanged and `from_raw` storing the given pointer unchanged, so
`from_raw (into_raw w)` is bit-identical to `w` for all three wrappers (for
`Thin` this is the returned pointer component; its state effect is the
separate C1 issue).  `RawThin`'s and `CopyThin`'s duplication are passthru,
and `Thin`'s `clone_from_raw` delegates exactly to the wrapped kind's, so
nesting `Thin` inside `Thin` changes neither the pointer value nor the
duplication behaviour. -/
theorem wrappers_preserve_pointer_and_delegate (V : Type) (H : Type)
    (C : PtrClass H V) (pc : Nat → State V → Nat × State V)
    (w : RawThin) (cw : CopyThin) (t : Thin) (p : Nat) (st st2 : State V) :
    RawThin.from_raw (RawThin.into_raw w) = w
    ∧ (RawThin.from_raw p).ptr = p
    ∧ RawThin.clone_from_raw p st = (p, st)
    ∧ CopyThin.from_raw (CopyThin.into_raw cw) = cw
    ∧ (CopyThin.from_raw p).raw.ptr = p
    ∧ CopyThin.clone_from_raw p st = (p, st)
    ∧ ((thinClass C).into_raw t st).1 = t.raw.ptr
    ∧ ((thinClass C).from_raw p st2).1.raw.ptr = p
    ∧ ((thinClass C).from_raw ((thinClass C).into_raw t st).1 st2).1 = t
    ∧ Thin.clone_from_raw pc p st = pc p st
    ∧ Thin.clone_from_raw (Thin.clone_from_raw pc) p st = pc p st :=
  ⟨rfl, rfl, rfl, rfl, rfl, rfl, rfl, rfl, rfl, rfl, rfl⟩

/-- Claim C10: in the non-zero-size path of `Box::clone_from_raw` the
allocator is called before the `value` closure (the pointee's `T::clone`) is
ever run, so when allocation fails the process aborts with the clone counter
unchanged — the only event recorded at termination is the allocation attempt,
and no pointee-level side effect has occurred. -/
theorem box_alloc_before_clone (V : Type) [Inhabited V]
    (sizeT alignT p : Nat) (st : State V)
    (hs : sizeT ≠ 0) (hf : st.allocFn st.allocCalls = none) :
    ∃ st1, Box.clone_from_raw sizeT alignT p st
        = CloneResult.aborted sizeT st1
      ∧ st1.cloneCalls = st.cloneCalls
      ∧ st1.events = Event.allocCall sizeT :: st.events := by
  refine ⟨(st.allocOnce sizeT).2, ?_, rfl, rfl⟩
  simp [Box.clone_from_raw, State.allocOnce, hs, hf]

/-- Witness for C10: at `sizeT = 8` with the always-failing allocator state
`stFail`, the abort happens with no clone side effect. -/
theorem box_alloc_before_clone_witness :
    (8 ≠ 0 ∧ stFail.allocFn stFail.allocCalls = none)
    ∧ ∃ st1, Box.clone_from_raw 8 4 7 stFail = CloneResult.aborted 8 st1
        ∧ st1.cloneCalls = stFail.cloneCalls
        ∧ st1.events = Event.allocCall 8 :: stFail.events :=
  ⟨⟨by decide, rfl⟩, box_alloc_before_clone Nat 8 4 7 stFail (by decide) rfl⟩
